import Mathlib

/-!
# Verification of the FloorMap routing subsystem

Shallow embedding of the routing core of the FloorMap repository:

* the indoor routing-graph builder and route stitcher of the
  `IndoorDirections` class (`calculateDistance`, `loadMapData`,
  `updateSnapPoints`, `calculateDirections`);
* the cross-building orchestrator of `CrossBuildingNavigationService`
  (`findCrossBuildingRoute`, `getOutdoorRoute`, `getOSRMRoute`,
  `getIndoorOnlyRoute`, `adjustRouteTimingForRealism`,
  `estimateIndoorDuration`, `findNearestEntrance`,
  `detectBuildingFromCoordinate`, `createOutdoorInstructions`).

JavaScript numbers are modelled as exact rationals (`ℚ`); the one place
where IEEE-754 special values are behaviourally relevant (division by a
zero route duration) is modelled separately with an explicit `JSNum` type
carrying infinities and NaN.

The haversine trigonometric core (`2·atan2(√a, √(1−a))` over sines and
cosines of the coordinates) is transcendental and is abstracted as a
parameter `θ : Coord → Coord → ℚ` ("central angle").  Both distance
functions in the sources apply the *identical* formula for the central
angle and differ only in the Earth-radius constant they multiply it by
(`6371` in `IndoorDirections.calculateDistance`, `6371e3` in
`CrossBuildingNavigationService.calculateHaversineDistance`), so every
statement proved here holds for the true haversine core in particular.
-/

namespace FloorMap

/-- A geographic coordinate `[longitude, latitude]`.  Vertices of the routing
graph are identified in the source by the string `JSON.stringify(coord)`;
`JSON.stringify` is injective on distinct numeric pairs, so the string key is
modelled by the coordinate value itself. -/
abbrev Coord := ℚ × ℚ

/-! ## IndoorDirections: graph construction (`loadMapData`) -/

/-- The `properties` object of a GeoJSON feature, restricted to the fields the
routing code reads.  `ftype` models `properties.type` (a reserved word in
Lean), `feature_type` models `properties.feature_type`, `accessibility`
models `properties.accessibility`. -/
structure FeatProps where
  ftype : Option String
  feature_type : Option String
  accessibility : Option String
deriving DecidableEq

/-- A GeoJSON feature as consumed by `IndoorDirections.loadMapData`:
`isLineString` models `feature.geometry.type === "LineString"`, `coords` the
LineString coordinates, `props` the (possibly absent) properties object. -/
structure Feature where
  isLineString : Bool
  coords : List Coord
  props : Option FeatProps
deriving DecidableEq

/-- The pedestrian-accessibility filter of `loadMapData` (source lines
153-171): LineString geometry with a properties object whose `type` is
corridor / room_connection, or whose `feature_type` is corridor / walkway /
path / footway / sidewalk, or `feature_type === "unknown"` with
`accessibility !== "no"`. -/
def isWalkable (f : Feature) : Bool :=
  if !f.isLineString then false else
  match f.props with
  | none => false
  | some p =>
      decide (p.ftype = some "corridor" ∨
        p.ftype = some "room_connection" ∨
        p.feature_type = some "corridor" ∨
        p.feature_type = some "walkway" ∨
        p.feature_type = some "path" ∨
        p.feature_type = some "footway" ∨
        p.feature_type = some "sidewalk" ∨
        (p.feature_type = some "unknown" ∧ ¬ p.accessibility = some "no"))

/-- `walkableFeatures` of `loadMapData`: the filtered feature list. -/
def walkableFeatures (features : List Feature) : List Feature :=
  features.filter isWalkable

/-- `IndoorDirections.calculateDistance` (source lines 94-111): haversine
distance with `R = 6371` ("Earth's radius in kilometers"), hence a distance
in **kilometers**.  `θ` abstracts the transcendental central-angle core
`c = 2·atan2(√a, √(1−a))`. -/
def calculateDistance (θ : Coord → Coord → ℚ) (c1 c2 : Coord) : ℚ :=
  6371 * θ c1 c2

/-- `feature.properties?.type` as read by the weighting code. -/
def featRouteType (f : Feature) : Option String :=
  f.props.bind (fun p => p.ftype)

/-- `feature.properties?.feature_type` as read by the weighting code. -/
def featFeatureType (f : Feature) : Option String :=
  f.props.bind (fun p => p.feature_type)

/-- The path-class weight multiplier applied by `loadMapData` (source lines
209-225), read off the feature's `type` / `feature_type` in the source's
if-else chain order. -/
def segmentWeightFactor (f : Feature) : ℚ :=
  if featRouteType f = some "corridor" then 1/2
  else if featRouteType f = some "room_connection" then 10
  else if featFeatureType f = some "corridor" then 3/5
  else if featFeatureType f = some "walkway" ∨ featFeatureType f = some "footway"
      ∨ featFeatureType f = some "path" then 7/10
  else if featFeatureType f = some "sidewalk" then 4/5
  else 3/2

/-- Modelled from the spec: the `pathfinding/graph` module imported by
`IndoorDirections` is not among the sources (only this caller is).  Spec §3:
an Edge is "an unordered pair of vertices plus a non-negative weight";
"Edges are symmetric: traversal cost is identical in both directions".
The graph records each `addEdge` call; `hasEdge` treats the endpoint pair as
unordered. -/
structure Graph where
  edges : List (Coord × Coord × ℚ)
deriving DecidableEq

def Graph.empty : Graph := ⟨[]⟩

def Graph.addEdge (g : Graph) (a b : Coord) (w : ℚ) : Graph :=
  ⟨(a, b, w) :: g.edges⟩

/-- The graph holds an edge of weight `w` between `a` and `b` (in either
orientation, edges being unordered pairs). -/
def Graph.hasEdge (g : Graph) (a b : Coord) (w : ℚ) : Prop :=
  (a, b, w) ∈ g.edges ∨ (b, a, w) ∈ g.edges

instance (g : Graph) (a b : Coord) (w : ℚ) : Decidable (g.hasEdge a b w) := by
  unfold Graph.hasEdge; infer_instance

/-- The number of entries of the `coordMap` set at key `c`: one per walkable
feature whose coordinate list contains `c` (the source stores one
coordinates-array *reference* per feature; parsed GeoJSON features are
distinct objects, so the set size equals the number of such features). -/
def coordOverlapCount (wf : List Feature) (c : Coord) : ℕ :=
  (wf.filter (fun g => decide (c ∈ g.coords))).length

/-- The junction block of `loadMapData` (source lines 229-255), executed for
the segment starting at `frm` with segment weight `w`.  The source iterates
the overlap set guarded by `otherCoords == coordinates` — *reference*
equality with the current feature's own array — so only the entry for the
current feature `f` itself acts; it then re-adds edges from `frm` to the
neighbours of the *first* occurrence of `frm` in `f`, with the current
segment's weight. -/
def junctionEdgesAt (wf : List Feature) (f : Feature) (frm : Coord) (w : ℚ) :
    List (Coord × Coord × ℚ) :=
  if 1 < coordOverlapCount wf frm then
    match f.coords.findIdx? (fun c => decide (c = frm)) with
    | some idx =>
        (if 0 < idx then [(frm, f.coords.getD (idx - 1) (0, 0), w)] else []) ++
        (if idx < f.coords.length - 1 then [(frm, f.coords.getD (idx + 1) (0, 0), w)] else [])
    | none => []
  else []

/-- The edges contributed by one walkable feature in the second loop of
`loadMapData` (source lines 194-256): for every consecutive coordinate pair,
the weighted segment edge followed by the junction-block edges. -/
def edgesOfFeature (θ : Coord → Coord → ℚ) (wf : List Feature) (f : Feature) :
    List (Coord × Coord × ℚ) :=
  (List.range (f.coords.length - 1)).flatMap (fun i =>
    let frm := f.coords.getD i (0, 0)
    let dst := f.coords.getD (i + 1) (0, 0)
    let w := calculateDistance θ frm dst * segmentWeightFactor f
    (frm, dst, w) :: junctionEdgesAt wf f frm w)

/-- All `addEdge` calls of `loadMapData`, in call order. -/
def allLoadedEdges (θ : Coord → Coord → ℚ) (features : List Feature) :
    List (Coord × Coord × ℚ) :=
  let wf := walkableFeatures features
  wf.flatMap (fun f => edgesOfFeature θ wf f)

/-- `IndoorDirections.loadMapData` (source lines 146-259): filter the
pedestrian-accessible features and add the weighted edges of every
consecutive coordinate pair, plus the junction-block edges. -/
def loadMapData (θ : Coord → Coord → ℚ) (features : List Feature) : Graph :=
  (allLoadedEdges θ features).foldl
    (fun g e => g.addEdge e.1 e.2.1 e.2.2) Graph.empty

/-! ## IndoorDirections: snapping and route stitching -/

/-- `IndoorDirections.findNearestGraphPoint` (source lines 113-130): linear
scan over the graph's vertex keys (in insertion order), keeping the first
strictly-smaller distance; `none` when the vertex set is empty. -/
def findNearestGraphPoint (θ : Coord → Coord → ℚ) (vertices : List Coord)
    (point : Coord) : Option Coord :=
  (vertices.foldl
    (fun best coord =>
      let d := calculateDistance θ point coord
      match best with
      | none => some (coord, d)
      | some pr => if d < pr.2 then some (coord, d) else best)
    none).map (fun pr => pr.1)

/-- `IndoorDirections.updateSnapPoints` (source lines 132-144): each waypoint
snaps to the nearest graph vertex, falling back to the waypoint itself when
no vertex exists (`nearest || waypoint.geometry.coordinates`). -/
def updateSnapPoints (θ : Coord → Coord → ℚ) (vertices : List Coord)
    (waypoints : List Coord) : List Coord :=
  waypoints.map (fun w => (findNearestGraphPoint θ vertices w).getD w)

/-- `IndoorDirections.calculateDirections` (source lines 292-344), with the
injected `PathFinder.dijkstra` abstracted as `dij` (the `pathfinding`
module is not among the sources; per spec §4.2 it returns the ordered vertex
sequence of a shortest path, with NotFound represented by an empty list).
With at least two snap points the loop pushes the whole first leg and each
later leg with its first coordinate sliced off; otherwise the stored full
route is set to `[]`. -/
def calculateDirections (dij : Coord → Coord → List Coord)
    (snappoints : List Coord) : List Coord :=
  if 2 ≤ snappoints.length then
    (List.range (snappoints.length - 1)).foldl
      (fun routes i =>
        let s := snappoints.getD i (0, 0)
        let e := snappoints.getD (i + 1) (0, 0)
        let segmentRoute := dij s e
        if i = 0 then routes ++ segmentRoute else routes ++ segmentRoute.drop 1)
      []
  else []

/-- The full route the session stores after `setWaypoints` (source lines
265-290, 334, 341): snap every waypoint, then stitch the legs. -/
def setWaypointsFullRoute (θ : Coord → Coord → ℚ) (vertices : List Coord)
    (dij : Coord → Coord → List Coord) (waypoints : List Coord) : List Coord :=
  calculateDirections dij (updateSnapPoints θ vertices waypoints)

/-- Follows the spec's words (§4.3, stitching): the tail legs of the stitched
route, "the first coordinate (the shared junction with the previous pair's
last coordinate) is dropped". -/
def stitchedTail (dij : Coord → Coord → List Coord) : List Coord → List Coord
  | a :: b :: rest => (dij a b).drop 1 ++ stitchedTail dij (b :: rest)
  | _ => []

/-- Follows the spec's words (§4.3): "computes a path for every consecutive
pair and concatenates them", dropping the first coordinate of every leg
after the first. -/
def specStitchedRoute (dij : Coord → Coord → List Coord) : List Coord → List Coord
  | a :: b :: rest => dij a b ++ stitchedTail dij (b :: rest)
  | _ => []

/-- `CrossBuildingNavigationService.calculateHaversineDistance` (source lines
1904-1917): haversine with `R = 6371e3`, hence a distance in **meters**; the
central-angle core is the same formula as in
`IndoorDirections.calculateDistance`. -/
def calculateHaversineDistance (θ : Coord → Coord → ℚ) (c1 c2 : Coord) : ℚ :=
  6371000 * θ c1 c2

/-! ## Supporting lemmas for graph construction and stitching -/

theorem foldl_addEdge_edges (l : List (Coord × Coord × ℚ)) (g : Graph) :
    (l.foldl (fun g e => g.addEdge e.1 e.2.1 e.2.2) g).edges = l.reverse ++ g.edges := by
  induction l generalizing g with
  | nil => simp
  | cons e t ih =>
    rw [List.foldl_cons, ih]
    simp [Graph.addEdge]

theorem mem_loadMapData_edges {θ : Coord → Coord → ℚ} {features : List Feature}
    {e : Coord × Coord × ℚ} :
    e ∈ (loadMapData θ features).edges ↔ e ∈ allLoadedEdges θ features := by
  simp [loadMapData, foldl_addEdge_edges, Graph.empty]

/-- Every consecutive coordinate pair of every walkable feature produces an
edge call with the feature's scaled weight (the head of the inner flatMap
element of `edgesOfFeature`). -/
theorem consecutive_edge_mem (θ : Coord → Coord → ℚ) (features : List Feature)
    (f : Feature) (hf : f ∈ walkableFeatures features)
    (i : ℕ) (hi : i + 1 < f.coords.length) :
    (f.coords.getD i (0, 0), f.coords.getD (i + 1) (0, 0),
      calculateDistance θ (f.coords.getD i (0, 0)) (f.coords.getD (i + 1) (0, 0))
        * segmentWeightFactor f)
      ∈ allLoadedEdges θ features := by
  unfold allLoadedEdges
  refine List.mem_flatMap.mpr ⟨f, hf, ?_⟩
  unfold edgesOfFeature
  refine List.mem_flatMap.mpr ⟨i, ?_, ?_⟩
  · rw [List.mem_range]; omega
  · exact List.mem_cons_self _ _

theorem loadMapData_hasEdge_consecutive (θ : Coord → Coord → ℚ)
    (features : List Feature) (f : Feature) (hf : f ∈ walkableFeatures features)
    (i : ℕ) (hi : i + 1 < f.coords.length) :
    (loadMapData θ features).hasEdge (f.coords.getD i (0, 0)) (f.coords.getD (i + 1) (0, 0))
      (calculateDistance θ (f.coords.getD i (0, 0)) (f.coords.getD (i + 1) (0, 0))
        * segmentWeightFactor f) :=
  Or.inl (mem_loadMapData_edges.mpr (consecutive_edge_mem θ features f hf i hi))

theorem stitchedTail_eq_join (dij : Coord → Coord → List Coord) (l : List Coord) :
    ((List.range (l.length - 1)).map
      (fun i => (dij (l.getD i (0, 0)) (l.getD (i + 1) (0, 0))).drop 1)).flatten
      = stitchedTail dij l := by
  induction l with
  | nil => simp [stitchedTail]
  | cons a tail ih =>
    cases tail with
    | nil => simp [stitchedTail]
    | cons b rest =>
      have hlen : (a :: b :: rest).length - 1 = rest.length + 1 := by simp
      rw [hlen, List.range_succ_eq_map]
      simp only [List.map_cons, List.flatten_cons, List.map_map]
      rw [stitchedTail]
      congr 1

theorem calculateDirections_eq_foldmap (dij : Coord → Coord → List Coord)
    (sp : List Coord) (h : 2 ≤ sp.length) :
    calculateDirections dij sp =
      ((List.range (sp.length - 1)).map (fun i =>
        if i = 0 then dij (sp.getD i (0, 0)) (sp.getD (i + 1) (0, 0))
        else (dij (sp.getD i (0, 0)) (sp.getD (i + 1) (0, 0))).drop 1)).flatten := by
  unfold calculateDirections
  rw [if_pos h]
  have key : ∀ (l : List ℕ) (acc : List Coord),
      l.foldl (fun routes i =>
        let s := sp.getD i (0, 0)
        let e := sp.getD (i + 1) (0, 0)
        let segmentRoute := dij s e
        if i = 0 then routes ++ segmentRoute else routes ++ segmentRoute.drop 1) acc
      = acc ++ (l.map (fun i =>
          if i = 0 then dij (sp.getD i (0, 0)) (sp.getD (i + 1) (0, 0))
          else (dij (sp.getD i (0, 0)) (sp.getD (i + 1) (0, 0))).drop 1)).flatten := by
    intro l
    induction l with
    | nil => intro acc; simp
    | cons x t ih =>
      intro acc
      simp only [List.foldl_cons, List.map_cons, List.flatten_cons, ih]
      by_cases hx : x = 0 <;> simp [hx, List.append_assoc]
  simpa using key (List.range (sp.length - 1)) []

/-- The stitched-route characterization of `calculateDirections`: with at
least two snap points the stored full route is the first Path Finder leg
followed by every later leg with its first coordinate dropped. -/
theorem calculateDirections_eq_spec (dij : Coord → Coord → List Coord)
    (sp : List Coord) (h : 2 ≤ sp.length) :
    calculateDirections dij sp = specStitchedRoute dij sp := by
  match sp, h with
  | a :: b :: rest, h =>
    rw [calculateDirections_eq_foldmap dij _ h]
    have hlen : (a :: b :: rest).length - 1 = rest.length + 1 := by simp
    rw [hlen, List.range_succ_eq_map]
    simp only [List.map_cons, List.flatten_cons, List.map_map]
    rw [specStitchedRoute]
    congr 1
    rw [← stitchedTail_eq_join dij (b :: rest)]
    have h2 : (b :: rest).length - 1 = rest.length := by simp
    rw [h2]
    rfl

/-! ## Claim C1 -/

/-- C1: wherever two distinct walkable line features share a coordinate `c`,
the graph built by `loadMapData` has an edge between every adjacent pair of
any walkable line `L` through `c` when one of the pair is `c` — i.e. `c` is
connected to its immediate neighbours on every line passing through it, so a
route can transfer between lines at the shared vertex (the vertex identity
being the coordinate's JSON key, shared by all lines). -/
theorem c1_shared_coordinate_junction_edges
    (θ : Coord → Coord → ℚ) (data : List Feature)
    (f g : Feature) (_hf : f ∈ walkableFeatures data) (_hg : g ∈ walkableFeatures data)
    (_hfg : f ≠ g) (c : Coord) (_hcf : c ∈ f.coords) (_hcg : c ∈ g.coords)
    (L : Feature) (hL : L ∈ walkableFeatures data)
    (k : ℕ) (hk : k + 1 < L.coords.length)
    (_hadj : L.coords.getD k (0, 0) = c ∨ L.coords.getD (k + 1) (0, 0) = c) :
    ∃ w, (loadMapData θ data).hasEdge (L.coords.getD k (0, 0)) (L.coords.getD (k + 1) (0, 0)) w :=
  ⟨_, loadMapData_hasEdge_consecutive θ data L hL k hk⟩

/-- Witness for C1: two corridor lines sharing the coordinate `(0,0)`; the
shared coordinate is connected to its neighbour `(1,0)` on the first line. -/
theorem c1_shared_coordinate_junction_edges_witness :
    ∃ w, (loadMapData (fun _ _ => 1)
        [⟨true, [((0 : ℚ), (0 : ℚ)), (1, 0)], some ⟨some "corridor", none, none⟩⟩,
         ⟨true, [((0 : ℚ), (0 : ℚ)), (0, 1)], some ⟨some "corridor", none, none⟩⟩]).hasEdge
      (0, 0) (1, 0) w :=
  c1_shared_coordinate_junction_edges (fun _ _ => 1)
    [⟨true, [((0 : ℚ), (0 : ℚ)), (1, 0)], some ⟨some "corridor", none, none⟩⟩,
     ⟨true, [((0 : ℚ), (0 : ℚ)), (0, 1)], some ⟨some "corridor", none, none⟩⟩]
    ⟨true, [((0 : ℚ), (0 : ℚ)), (1, 0)], some ⟨some "corridor", none, none⟩⟩
    ⟨true, [((0 : ℚ), (0 : ℚ)), (0, 1)], some ⟨some "corridor", none, none⟩⟩
    (by decide) (by decide) (by decide)
    (0, 0) (by decide) (by decide)
    ⟨true, [((0 : ℚ), (0 : ℚ)), (1, 0)], some ⟨some "corridor", none, none⟩⟩
    (by decide) 0 (by decide) (Or.inl (by decide))

/-! ## Claim C4 -/

/-- C4: whenever snapping yields at least two snap points, the session's full
route equals the Path Finder path for each consecutive snap-point pair
concatenated in order, the first coordinate of every pair after the first
dropped exactly once. -/
theorem c4_full_route_is_stitched_legs (θ : Coord → Coord → ℚ)
    (vertices : List Coord) (dij : Coord → Coord → List Coord)
    (waypoints : List Coord)
    (h : 2 ≤ (updateSnapPoints θ vertices waypoints).length) :
    setWaypointsFullRoute θ vertices dij waypoints
      = specStitchedRoute dij (updateSnapPoints θ vertices waypoints) :=
  calculateDirections_eq_spec dij _ h

/-- Witness for C4 at a concrete two-waypoint session (the empty vertex set
makes each waypoint snap to itself). -/
theorem c4_full_route_is_stitched_legs_witness :
    2 ≤ (updateSnapPoints (fun _ _ => 1) [] [((0 : ℚ), (0 : ℚ)), (1, 0)]).length
    ∧ setWaypointsFullRoute (fun _ _ => 1) [] (fun a b => [a, b])
        [((0 : ℚ), (0 : ℚ)), (1, 0)]
      = specStitchedRoute (fun a b => [a, b])
          (updateSnapPoints (fun _ _ => 1) [] [((0 : ℚ), (0 : ℚ)), (1, 0)]) :=
  ⟨by decide, c4_full_route_is_stitched_legs (fun _ _ => 1) [] (fun a b => [a, b])
    [((0 : ℚ), (0 : ℚ)), (1, 0)] (by decide)⟩

/-! ## Claim C5 -/

/-- C5 counterexample: with three snap points and the Path Finder signalling
NotFound (empty path) on the second leg, the session's overall full route is
NOT empty — it keeps the first leg's coordinates.  This refutes "a NotFound
on any leg yields an empty overall route" as stated. -/
theorem c5_notfound_counterexample :
    calculateDirections
      (fun a b => if a == ((0 : ℚ), (0 : ℚ)) && b == ((1 : ℚ), (0 : ℚ))
        then [((0 : ℚ), (0 : ℚ)), (1, 0)] else [])
      [((0 : ℚ), (0 : ℚ)), (1, 0), (2, 0)] = [((0 : ℚ), (0 : ℚ)), (1, 0)]
    ∧ (fun a b => if a == ((0 : ℚ), (0 : ℚ)) && b == ((1 : ℚ), (0 : ℚ))
        then [((0 : ℚ), (0 : ℚ)), (1, 0)] else ([] : List Coord)) (1, 0) (2, 0) = []
    ∧ calculateDirections
      (fun a b => if a == ((0 : ℚ), (0 : ℚ)) && b == ((1 : ℚ), (0 : ℚ))
        then [((0 : ℚ), (0 : ℚ)), (1, 0)] else [])
      [((0 : ℚ), (0 : ℚ)), (1, 0), (2, 0)] ≠ [] := by
  decide

/-- C5 (amended): with fewer than two snap points the session's full route is
empty, and a NotFound leg contributes no coordinates — so with exactly two
snap points (a single leg) a NotFound yields an empty overall route; with
more snap points the other legs' coordinates remain (see the
counterexample). -/
theorem c5_empty_route_amended (dij : Coord → Coord → List Coord)
    (sp : List Coord) :
    (sp.length < 2 → calculateDirections dij sp = [])
    ∧ (∀ a b, sp = [a, b] → dij a b = [] → calculateDirections dij sp = []) := by
  constructor
  · intro h
    unfold calculateDirections
    rw [if_neg (by omega)]
  · rintro a b rfl hab
    rw [calculateDirections_eq_spec dij _ (by simp)]
    simp [specStitchedRoute, stitchedTail, hab]

/-- Witness for C5 (amended): a single NotFound leg between two snap points
yields the empty route. -/
theorem c5_empty_route_amended_witness :
    calculateDirections (fun _ _ => ([] : List Coord)) [((0 : ℚ), (0 : ℚ)), (1, 0)] = [] :=
  (c5_empty_route_amended (fun _ _ => ([] : List Coord))
    [((0 : ℚ), (0 : ℚ)), (1, 0)]).2 (0, 0) (1, 0) rfl rfl

/-! ## Claim C6 -/

/-- C6 counterexample: the graph builder scales the haversine distance with
Earth radius constant `6371` (kilometers, `IndoorDirections.calculateDistance`),
not `6371e3` (meters, the repository's own
`CrossBuildingNavigationService.calculateHaversineDistance`).  For a one-line
corridor dataset (under any central-angle core, here the constant 1), the
edge carries the kilometer-scaled weight and no edge carries the
meter-scaled weight, refuting "distance in meters" as stated. -/
theorem c6_meters_counterexample :
    (loadMapData (fun _ _ => 1)
        [⟨true, [((0 : ℚ), (0 : ℚ)), (1, 0)], some ⟨some "corridor", none, none⟩⟩]).hasEdge
      (0, 0) (1, 0)
      (calculateDistance (fun _ _ => 1) (0, 0) (1, 0) * (1 / 2))
    ∧ ¬ (loadMapData (fun _ _ => 1)
        [⟨true, [((0 : ℚ), (0 : ℚ)), (1, 0)], some ⟨some "corridor", none, none⟩⟩]).hasEdge
      (0, 0) (1, 0)
      (calculateHaversineDistance (fun _ _ => 1) (0, 0) (1, 0) * (1 / 2)) := by
  have hE : (loadMapData (fun _ _ => 1)
      [⟨true, [((0 : ℚ), (0 : ℚ)), (1, 0)], some ⟨some "corridor", none, none⟩⟩]).edges
      = [((0, 0), (1, 0), calculateDistance (fun _ _ => 1) (0, 0) (1, 0)
          * segmentWeightFactor ⟨true, [((0 : ℚ), (0 : ℚ)), (1, 0)], some ⟨some "corridor", none, none⟩⟩)] := rfl
  constructor
  · exact loadMapData_hasEdge_consecutive (fun _ _ => 1)
      [⟨true, [((0 : ℚ), (0 : ℚ)), (1, 0)], some ⟨some "corridor", none, none⟩⟩]
      ⟨true, [((0 : ℚ), (0 : ℚ)), (1, 0)], some ⟨some "corridor", none, none⟩⟩
      (by decide) 0 (by decide)
  · intro h
    simp only [Graph.hasEdge, hE, List.mem_singleton, Prod.mk.injEq] at h
    rcases h with h | h <;>
      norm_num [calculateDistance, calculateHaversineDistance, segmentWeightFactor,
        featRouteType, featFeatureType] at h

/-- C6 (amended): for every consecutive coordinate pair of every included
line feature, graph construction adds a symmetric edge whose weight equals
the haversine distance computed with Earth radius constant `6371`
(kilometers) multiplied by the path-class factor: `type` corridor ×0.5,
`type` room_connection ×10, `feature_type` corridor ×0.6,
walkway/footway/path ×0.7, sidewalk ×0.8, anything else ×1.5 (the
`feature_type` factors applying when `type` selects no factor, per the
source's if-else chain). -/
theorem c6_edge_weight_km_amended (θ : Coord → Coord → ℚ) (data : List Feature)
    (f : Feature) (hf : f ∈ walkableFeatures data)
    (i : ℕ) (hi : i + 1 < f.coords.length) :
    (loadMapData θ data).hasEdge (f.coords.getD i (0, 0)) (f.coords.getD (i + 1) (0, 0))
      (calculateDistance θ (f.coords.getD i (0, 0)) (f.coords.getD (i + 1) (0, 0))
        * segmentWeightFactor f)
    ∧ (featRouteType f = some "corridor" → segmentWeightFactor f = 1 / 2)
    ∧ (featRouteType f = some "room_connection" → segmentWeightFactor f = 10)
    ∧ (featRouteType f ≠ some "corridor" → featRouteType f ≠ some "room_connection" →
        (featFeatureType f = some "corridor" → segmentWeightFactor f = 3 / 5)
        ∧ ((featFeatureType f = some "walkway" ∨ featFeatureType f = some "footway"
            ∨ featFeatureType f = some "path") → segmentWeightFactor f = 7 / 10)
        ∧ (featFeatureType f = some "sidewalk" → segmentWeightFactor f = 4 / 5)
        ∧ (featFeatureType f ≠ some "corridor" → featFeatureType f ≠ some "walkway" →
            featFeatureType f ≠ some "footway" → featFeatureType f ≠ some "path" →
            featFeatureType f ≠ some "sidewalk" → segmentWeightFactor f = 3 / 2)) := by
  refine ⟨loadMapData_hasEdge_consecutive θ data f hf i hi, ?_, ?_, ?_⟩
  · intro h
    simp [segmentWeightFactor, h]
  · intro h
    simp [segmentWeightFactor, h]
  · intro h1 h2
    refine ⟨?_, ?_, ?_, ?_⟩
    · intro h3
      simp [segmentWeightFactor, h1, h2, h3]
    · intro h3
      rcases h3 with h3 | h3 | h3 <;> simp [segmentWeightFactor, h1, h2, h3]
    · intro h3
      simp [segmentWeightFactor, h1, h2, h3]
    · intro h3 h4 h5 h6 h7
      simp [segmentWeightFactor, h1, h2, h3, h4, h5, h6, h7]

/-- Witness for C6 (amended) at a concrete corridor line. -/
theorem c6_edge_weight_km_amended_witness :
    (loadMapData (fun _ _ => 1)
        [⟨true, [((0 : ℚ), (0 : ℚ)), (1, 0)], some ⟨some "corridor", none, none⟩⟩]).hasEdge
      (0, 0) (1, 0)
      (calculateDistance (fun _ _ => 1) (0, 0) (1, 0)
        * segmentWeightFactor ⟨true, [((0 : ℚ), (0 : ℚ)), (1, 0)], some ⟨some "corridor", none, none⟩⟩)
    ∧ segmentWeightFactor
        ⟨true, [((0 : ℚ), (0 : ℚ)), (1, 0)], some ⟨some "corridor", none, none⟩⟩ = 1 / 2 :=
  have h := c6_edge_weight_km_amended (fun _ _ => 1)
    [⟨true, [((0 : ℚ), (0 : ℚ)), (1, 0)], some ⟨some "corridor", none, none⟩⟩]
    ⟨true, [((0 : ℚ), (0 : ℚ)), (1, 0)], some ⟨some "corridor", none, none⟩⟩
    (by decide) 0 (by decide)
  ⟨h.1, h.2.1 (by decide)⟩

/-! ## CrossBuildingNavigationService: data shapes

The orchestrator lives in `src/app/services/concept3d-wayfinding.ts`; the
embedding follows the second (current) copy of the class, source lines
1231-2036. -/

namespace Wayfinding

/-- An OSRM-format step.  `instruction` models `maneuver.instruction`; the
remaining maneuver fields (`location`, bearings, `type`, `modifier`) are not
read by the modelled code paths and are omitted. -/
structure OSMRouteStep where
  distance : ℚ
  duration : ℚ
  geometry : List Coord
  name : String
  instruction : String
deriving DecidableEq

structure OSMRouteLeg where
  distance : ℚ
  duration : ℚ
  steps : List OSMRouteStep
  summary : String
  weight : ℚ
deriving DecidableEq

structure OSMRoute where
  distance : ℚ
  duration : ℚ
  geometry : List Coord
  legs : List OSMRouteLeg
  weight : ℚ
  weight_name : String
deriving DecidableEq

/-- A `Concept3DRouteSegment` restricted to the fields `routeToOSMFormat`
reads (`distance`, `duration`, `type`, `modifier`, `action`, `route`);
`segType` models the source field `type`. -/
structure Concept3DRouteSegment where
  distance : ℚ
  duration : ℚ
  modifier : String
  segType : String
  action : String
  route : List Coord
deriving DecidableEq

/-- A `Concept3DRoute` restricted to the fields `routeToOSMFormat` reads. -/
structure Concept3DRoute where
  distance : ℚ
  duration : ℚ
  route : List Concept3DRouteSegment
  fullPath : List Coord
deriving DecidableEq

/-- `Concept3DWayfindingService.routeToOSMFormat` (source lines 278-318):
wraps each Concept3D segment as a one-step OSRM leg. -/
def routeToOSMFormat (route : Concept3DRoute) : OSMRoute :=
  { distance := route.distance
    duration := route.duration
    geometry := route.fullPath
    legs := route.route.map (fun segment =>
      { distance := segment.distance
        duration := segment.duration
        steps := [{ distance := segment.distance
                    duration := segment.duration
                    geometry := segment.route
                    name := segment.action
                    instruction := segment.action }]
        summary := segment.action
        weight := segment.distance })
    weight := route.distance
    weight_name := "distance" }

/-- `adjustRouteTimingForRealism` (source lines 1639-1665) over exact
rationals: `adjustedDuration = duration·1.4 + 300`, legs and steps scaled by
`adjustedDuration / duration`.  Rational division idealizes IEEE-754
division; the `duration = 0` behaviour (division by zero producing
Infinity/NaN) is modelled separately by `jsAdjustRouteTimingForRealism`. -/
def adjustRouteTimingForRealism (route : OSMRoute) : OSMRoute :=
  let baseSpeedAdjustment : ℚ := 14/10
  let bufferTime : ℚ := 300
  let adjustedDuration := route.duration * baseSpeedAdjustment + bufferTime
  let durationMultiplier := adjustedDuration / route.duration
  { route with
    duration := adjustedDuration
    legs := route.legs.map (fun leg =>
      { leg with
        duration := leg.duration * durationMultiplier
        steps := leg.steps.map (fun step =>
          { step with duration := step.duration * durationMultiplier }) })
    weight := adjustedDuration }

/-- `CrossBuildingNavigationService.calculateDistance` (source lines
1938-1944): total haversine (meters) length of a polyline, the sum over
consecutive pairs (the source's `for (i = 1; ...)` loop written as
recursion). -/
def calculateDistance (θ : Coord → Coord → ℚ) : List Coord → ℚ
  | a :: b :: rest => calculateHaversineDistance θ a b + calculateDistance θ (b :: rest)
  | _ => 0

/-- `estimateIndoorDuration` (source lines 1949-1953): geodesic path length
at the fixed 1.0 m/s indoor walking speed plus a fixed 60 s buffer; computed
purely from the geometry, never requested from a provider. -/
def estimateIndoorDuration (θ : Coord → Coord → ℚ) (coords : List Coord) : ℚ :=
  let distance := calculateDistance θ coords
  let baseDuration := distance / 1
  baseDuration + 60

/-- `detectBuildingFromCoordinate` (source lines 1849-1890): fixed bounding
boxes checked in order healy, darnall, reiss, lauinger; `none` otherwise. -/
def detectBuildingFromCoordinate (coord : Coord) : Option String :=
  let longitude := coord.1
  let latitude := coord.2
  if -77.0723 < longitude ∧ longitude < -77.0715
      ∧ 38.9072 < latitude ∧ latitude < 38.9080 then some "healy"
  else if -77.0740 < longitude ∧ longitude < -77.0730
      ∧ 38.9110 < latitude ∧ latitude < 38.9118 then some "darnall"
  else if -77.0745 < longitude ∧ longitude < -77.0725
      ∧ 38.9092 < latitude ∧ latitude < 38.9105 then some "reiss"
  else if -77.0730 < longitude ∧ longitude < -77.0720
      ∧ 38.9076 < latitude ∧ latitude < 38.9084 then some "lauinger"
  else none

structure BuildingEntrance where
  id : String
  name : String
  coordinates : Coord
  building_id : String
  floor : String
  accessibility : Bool
deriving DecidableEq

/-- `loadBuildingEntrances` (source lines 1958-1997): the static entrance
table. -/
def loadBuildingEntrances : List BuildingEntrance :=
  [{ id := "darnall_main", name := "Darnall Hall Main Entrance",
     coordinates := (-77.07349839, 38.91127125), building_id := "darnall",
     floor := "G", accessibility := true },
   { id := "darnall_side", name := "Darnall Hall Side Entrance",
     coordinates := (-77.0735, 38.9115), building_id := "darnall",
     floor := "G", accessibility := false },
   { id := "reiss_main", name := "Reiss Science Building Main Entrance",
     coordinates := (-77.07360623, 38.90946303), building_id := "reiss",
     floor := "G", accessibility := true },
   { id := "reiss_north", name := "Reiss Science Building North Entrance",
     coordinates := (-77.07360623, 38.90946303), building_id := "reiss",
     floor := "G", accessibility := false }]

/-- JavaScript truthiness of an optional string: absent and `""` are falsy. -/
def truthyStr : Option String → Bool
  | none => false
  | some s => decide (¬ s = "")

/-- Unwrap an optional string for template interpolation (`${...}`); only
applied where the value is truthy. -/
def strOf (o : Option String) : String := o.getD ""

/-- `getDistanceToEntrance` (source lines 1895-1899) computes
`Math.sqrt(dx² + dy²)`.  Square root is strictly monotone on the
non-negative reals, so the strict comparisons in `findNearestEntrance`
select the same entrance when applied to the squared values; the model
therefore returns `dx² + dy²`. -/
def getDistanceToEntranceSq (coord1 coord2 : Coord) : ℚ :=
  let dx := coord1.1 - coord2.1
  let dy := coord1.2 - coord2.2
  dx * dx + dy * dy

/-- `findNearestEntrance` (source lines 1806-1843): filter the table by the
(possibly re-detected) building id, fall back to the full table when the
building has no rows, then linear-scan for the strictly nearest entrance
(first wins ties). -/
def findNearestEntrance (coord : Coord) (buildingId0 : Option String) : BuildingEntrance :=
  let buildingId := if truthyStr buildingId0 then buildingId0
    else detectBuildingFromCoordinate coord
  let availableEntrances :=
    if truthyStr buildingId then
      let buildingEntrances := loadBuildingEntrances.filter
        (fun e => decide (some e.building_id = buildingId))
      if 0 < buildingEntrances.length then buildingEntrances else loadBuildingEntrances
    else loadBuildingEntrances
  match availableEntrances with
  | [] => { id := "", name := "", coordinates := (0, 0), building_id := "",
            floor := "", accessibility := false }
  | closest0 :: rest =>
      rest.foldl (fun closest entrance =>
        if getDistanceToEntranceSq coord entrance.coordinates
            < getDistanceToEntranceSq coord closest.coordinates
        then entrance else closest) closest0

/-- `createTransitionLine` (source lines 1725-1730). -/
def createTransitionLine (start_ end_ : Coord) : List Coord :=
  [start_, end_]

inductive InstrKind
  | indoor
  | outdoor
  | transition
deriving DecidableEq

/-- A `RouteInstruction` (source lines 1212-1220); `kind` models the source
field `type`. -/
structure RouteInstruction where
  kind : InstrKind
  text : String
  distance : Option ℚ := none
  duration : Option ℚ := none
  floor : Option String := none
  building : Option String := none
  geometry : Option (List Coord) := none
deriving DecidableEq

def charListMatchesAt : List Char → List Char → Bool
  | [], _ => true
  | _ :: _, [] => false
  | a :: as, b :: bs => a == b && charListMatchesAt as bs

def charListSearch (needle : List Char) : List Char → Bool
  | [] => charListMatchesAt needle []
  | b :: bs => charListMatchesAt needle (b :: bs) || charListSearch needle bs

/-- JavaScript `String.prototype.includes` (substring test). -/
def stringIncludes (hay needle : String) : Bool :=
  charListSearch needle.toList hay.toList

/-- `createOutdoorInstructions` (source lines 1489-1507): one `outdoor`
instruction per step of every leg, carrying the step's instruction text,
distance, duration and geometry. -/
def createOutdoorInstructions (outdoorRoute : OSMRoute) : List RouteInstruction :=
  outdoorRoute.legs.flatMap (fun leg =>
    leg.steps.map (fun step =>
      { kind := InstrKind.outdoor
        text := step.instruction
        distance := some step.distance
        duration := some step.duration
        geometry := some step.geometry }))

/-- The collaborators of one `findCrossBuildingRoute` request.
`centralAngle` abstracts the haversine trigonometric core (see the file
header).  `concept3dResult` is the outcome of the awaited
`concept3dService.getDirections` HTTP call including its internal
validations (non-2xx, bad status, empty route list, short `fullPath`, all
thrown as errors, source lines 73-148).  `osrmFetch` is the outcome of the
OSRM `fetch` + JSON parse in `getOSRMRoute`: the `data.routes` array on
success, or the thrown error on network / non-2xx failure.
`indoorFullRoute a b` is the behaviour of the injected `indoorDirections`
collaborator observed through `getIndoorRoute`: the `fullRoute` coordinate
list after `clear(); setWaypoints([a, b])`, with `none` when the instance is
unavailable or throws. -/
structure NavEnv where
  centralAngle : Coord → Coord → ℚ
  concept3dResult : Except String Concept3DRoute
  osrmFetch : Except String (List OSMRoute)
  indoorFullRoute : Coord → Coord → Option (List Coord)

/-- Which outdoor providers were called, in call order. -/
inductive OutdoorCall
  | concept3d
  | osrm
deriving DecidableEq

/-- `getIndoorRoute` (source lines 1736-1801): returns the indoor
`fullRoute` geometry when it has at least 2 coordinates.  (The fallback path
through `routelinesCoordinates` always yields `null` here because
`calculateDirections` clears `routelines` before the animation's first
frame, so it is not modelled as a separate source of geometry.) -/
def getIndoorRoute (env : NavEnv) (start_ end_ : Coord) : Option (List Coord) :=
  match env.indoorFullRoute start_ end_ with
  | some fullRouteCoordinates =>
      if 2 ≤ fullRouteCoordinates.length then some fullRouteCoordinates else none
  | none => none

/-- `getOSRMRoute` (source lines 1554-1634): on fetch failure or an empty
route list or degenerate geometry (fewer than 2 points) the error is
re-thrown; otherwise the primary route is timing-adjusted and returned.
(The straight-line sanity check at lines 1613-1620 only logs and is
behaviourally inert.) -/
def getOSRMRoute (env : NavEnv) : Except String OSMRoute :=
  match env.osrmFetch with
  | .error e => .error ("Failed to get OSRM outdoor route: " ++ e)
  | .ok routes =>
      match routes with
      | [] => .error "Failed to get OSRM outdoor route: No route found"
      | route :: _ =>
          if route.geometry.length < 2 then
            .error "Failed to get OSRM outdoor route: Invalid route geometry"
          else .ok (adjustRouteTimingForRealism route)

/-- `getOutdoorRoute` (source lines 1512-1549): try the Concept3D primary;
on success convert and adjust; on *any* primary failure fall back to exactly
one OSRM attempt.  The second component records the provider calls made. -/
def getOutdoorRoute (env : NavEnv) : Except String OSMRoute × List OutdoorCall :=
  match env.concept3dResult with
  | .ok concept3dRoute =>
      (.ok (adjustRouteTimingForRealism (routeToOSMFormat concept3dRoute)),
       [OutdoorCall.concept3d])
  | .error _ => (getOSRMRoute env, [OutdoorCall.concept3d, OutdoorCall.osrm])

/-- A request endpoint: a bare coordinate (`building`/`floor` absent) or a
coordinate annotated with a building id and floor. -/
structure RouteEndpoint where
  coordinates : Coord
  building : Option String := none
  floor : Option String := none
deriving DecidableEq

/-- `startBuilding || this.detectBuildingFromCoordinate(startCoord)`
(source lines 1268-1269): the caller-supplied building id when truthy,
otherwise bounding-box detection. -/
def detectedBuilding (ep : RouteEndpoint) : Option String :=
  if truthyStr ep.building then ep.building
  else detectBuildingFromCoordinate ep.coordinates

/-- The SAME_BUILDING condition (source line 1274). -/
def isSameBuildingRequest (s e : RouteEndpoint) : Bool :=
  truthyStr (detectedBuilding s) && truthyStr (detectedBuilding e)
    && decide (detectedBuilding s = detectedBuilding e)

/-- The NEITHER_INDOOR condition (source line 1286). -/
def isNeitherIndoorRequest (s e : RouteEndpoint) : Bool :=
  !truthyStr (detectedBuilding s) && !truthyStr (detectedBuilding e)

/-- The MIXED condition: neither of the two previous branches taken. -/
def isMixedRequest (s e : RouteEndpoint) : Bool :=
  !isSameBuildingRequest s e && !isNeitherIndoorRequest s e

/-- The aggregate `CrossBuildingRoute` (source lines 1197-1210);
`transitionToOutdoor`/`transitionToIndoor` model `transition.toOutdoor` /
`transition.toIndoor`, `indoorStart`/`indoorEnd` model `indoor.start` /
`indoor.end` (LineString coordinate lists). -/
structure CrossBuildingRoute where
  indoorStart : Option (List Coord)
  indoorEnd : Option (List Coord)
  outdoor : OSMRoute
  transitionToOutdoor : Option (List Coord)
  transitionToIndoor : Option (List Coord)
  totalDistance : ℚ
  totalDuration : ℚ
  instructions : List RouteInstruction
deriving DecidableEq

/-- `getIndoorOnlyRoute` (source lines 1670-1720): delegate to the indoor
session, zero outdoor route, totals from the indoor geometry alone. -/
def getIndoorOnlyRoute (env : NavEnv) (start_ end_ : RouteEndpoint) : CrossBuildingRoute :=
  let startCoord := start_.coordinates
  let endCoord := end_.coordinates
  let indoorRoute := getIndoorRoute env startCoord endCoord
  let totalDistance := match indoorRoute with
    | some cs => calculateDistance env.centralAngle cs
    | none => 0
  let totalDuration := match indoorRoute with
    | some cs => estimateIndoorDuration env.centralAngle cs
    | none => 0
  { indoorStart := indoorRoute
    indoorEnd := none
    outdoor := { distance := 0, duration := 0, geometry := [], legs := [],
                 weight := 0, weight_name := "duration" }
    transitionToOutdoor := none
    transitionToIndoor := none
    totalDistance := totalDistance
    totalDuration := totalDuration
    instructions := [{ kind := InstrKind.indoor
                       text := "Navigate to your destination"
                       distance := some totalDistance
                       duration := some totalDuration
                       geometry := indoorRoute }] }

/-- `findCrossBuildingRoute` (source lines 1253-1484).  The result pairs the
returned route (or thrown error) with the list of outdoor-provider calls
made.  Reference-inequality notes: `routeStartCoord !== startCoord` and
`routeEndCoord !== endCoord` compare array references, and the entrance
lookup always produces a fresh array object, so those guards hold exactly
when the respective side is indoor. -/
def findCrossBuildingRoute (env : NavEnv) (start_ end_ : RouteEndpoint) :
    Except String CrossBuildingRoute × List OutdoorCall :=
  let startCoord := start_.coordinates
  let endCoord := end_.coordinates
  if isSameBuildingRequest start_ end_ then
    (.ok (getIndoorOnlyRoute env start_ end_), [])
  else if isNeitherIndoorRequest start_ end_ then
    match getOutdoorRoute env with
    | (.ok outdoorRoute, calls) =>
        (.ok { indoorStart := none, indoorEnd := none, outdoor := outdoorRoute,
               transitionToOutdoor := none, transitionToIndoor := none,
               totalDistance := outdoorRoute.distance,
               totalDuration := outdoorRoute.duration,
               instructions := createOutdoorInstructions outdoorRoute }, calls)
    | (.error _, calls) =>
        (.error "Unable to calculate outdoor route. Please check your internet connection and try again.",
         calls)
  else
    let startIsIndoor := detectedBuilding start_
    let endIsIndoor := detectedBuilding end_
    let routeStartCoord := if truthyStr startIsIndoor then
        (findNearestEntrance startCoord startIsIndoor).coordinates else startCoord
    let routeEndCoord := if truthyStr endIsIndoor then
        (findNearestEntrance endCoord endIsIndoor).coordinates else endCoord
    match getOutdoorRoute env with
    | (.error _, calls) =>
        (.error "Unable to calculate outdoor route between buildings. Please check your internet connection and try again.",
         calls)
    | (.ok outdoorRoute, calls) =>
        let indoorEnd : Option (List Coord) :=
          if truthyStr endIsIndoor then getIndoorRoute env routeEndCoord endCoord else none
        let displayedEnd : Bool := truthyStr endIsIndoor && indoorEnd.isSome
        let transitionToIndoor : Option (List Coord) :=
          if displayedEnd then
            some (createTransitionLine (outdoorRoute.geometry.getLastD (0, 0)) routeEndCoord)
          else none
        let instrs1 : List RouteInstruction :=
          if displayedEnd then
            [{ kind := InstrKind.transition, text := "Enter " ++ strOf endIsIndoor },
             { kind := InstrKind.indoor
               text := "Navigate inside " ++ strOf endIsIndoor ++ " to your destination"
               building := endIsIndoor
               floor := end_.floor
               geometry := indoorEnd }]
          else []
        let indoorStart : Option (List Coord) :=
          if truthyStr startIsIndoor && !displayedEnd then
            getIndoorRoute env startCoord routeStartCoord
          else none
        let transitionToOutdoor : Option (List Coord) :=
          if truthyStr startIsIndoor && !displayedEnd && indoorStart.isSome then
            some (createTransitionLine routeStartCoord (outdoorRoute.geometry.headD (0, 0)))
          else if truthyStr startIsIndoor && displayedEnd then
            some (createTransitionLine routeStartCoord (outdoorRoute.geometry.headD (0, 0)))
          else none
        let instrs2 : List RouteInstruction :=
          if truthyStr startIsIndoor && !displayedEnd && indoorStart.isSome then
            { kind := InstrKind.indoor
              text := "Navigate inside " ++ strOf startIsIndoor ++ " to building exit"
              building := startIsIndoor
              floor := start_.floor
              geometry := indoorStart } :: instrs1
          else if truthyStr startIsIndoor && displayedEnd then
            { kind := InstrKind.indoor
              text := "Navigate inside " ++ strOf startIsIndoor ++ " to building exit"
              building := startIsIndoor
              floor := start_.floor
              geometry := none } :: instrs1
          else instrs1
        let instrs3 : List RouteInstruction :=
          if truthyStr startIsIndoor
              && !(instrs2.any (fun i =>
                    decide (i.kind = InstrKind.transition) && stringIncludes i.text "Exit")) then
            match instrs2.findIdx? (fun i => decide (i.kind = InstrKind.outdoor)) with
            | some transitionIndex =>
                if 0 < transitionIndex then
                  instrs2.take transitionIndex
                    ++ [{ kind := InstrKind.transition
                          text := "Exit " ++ strOf startIsIndoor ++ " and head towards "
                            ++ (if truthyStr endIsIndoor then strOf endIsIndoor
                                else "destination") }]
                    ++ instrs2.drop transitionIndex
                else instrs2
            | none => instrs2
          else instrs2
        let instrs4 : List RouteInstruction :=
          match instrs3.findIdx? (fun i => decide (i.kind = InstrKind.outdoor)) with
          | some _ => instrs3
          | none => instrs3 ++ createOutdoorInstructions outdoorRoute
        let transitionDistance : ℚ :=
          (match transitionToOutdoor with
           | some line => calculateDistance env.centralAngle line
           | none => 0)
          + (match transitionToIndoor with
             | some line => calculateDistance env.centralAngle line
             | none => 0)
        let totalDistance := outdoorRoute.distance
          + (match indoorStart with
             | some cs => calculateDistance env.centralAngle cs
             | none => 0)
          + (match indoorEnd with
             | some cs => calculateDistance env.centralAngle cs
             | none => 0)
          + transitionDistance
        let transitionTime : ℚ :=
          (if transitionToOutdoor.isSome then 30 else 0)
          + (if transitionToIndoor.isSome then 30 else 0)
        let totalDuration := outdoorRoute.duration
          + (match indoorStart with
             | some cs => estimateIndoorDuration env.centralAngle cs
             | none => 0)
          + (match indoorEnd with
             | some cs => estimateIndoorDuration env.centralAngle cs
             | none => 0)
          + transitionTime
        (.ok { indoorStart := indoorStart
               indoorEnd := indoorEnd
               outdoor := outdoorRoute
               transitionToOutdoor := transitionToOutdoor
               transitionToIndoor := transitionToIndoor
               totalDistance := totalDistance
               totalDuration := totalDuration
               instructions := instrs4 }, calls)

/-! ## Claim C2 -/

/-- C2: when the primary (Concept3D) provider call rejects, the OSRM
fallback is called exactly once; when the fallback also rejects, any request
reaching the outdoor call (i.e. not SAME_BUILDING) fails as a whole with an
error — `findCrossBuildingRoute` returns no partial route and no
straight-line substitute. -/
theorem c2_outdoor_fallback_once_and_terminal_failure
    (env : NavEnv) (s e : RouteEndpoint) (err : String)
    (hprim : env.concept3dResult = Except.error err) :
    (getOutdoorRoute env).2.count OutdoorCall.osrm = 1
    ∧ (∀ err2, getOSRMRoute env = Except.error err2 →
        isSameBuildingRequest s e = false →
        ∃ msg, (findCrossBuildingRoute env s e).1 = Except.error msg) := by
  have hout : getOutdoorRoute env
      = (getOSRMRoute env, [OutdoorCall.concept3d, OutdoorCall.osrm]) := by
    simp [getOutdoorRoute, hprim]
  constructor
  · rw [hout]
    rfl
  · intro err2 hosrm hnotsame
    by_cases hN : isNeitherIndoorRequest s e = true
    · exact ⟨"Unable to calculate outdoor route. Please check your internet connection and try again.",
        by simp [findCrossBuildingRoute, hnotsame, hN, hout, hosrm]⟩
    · have hN2 : isNeitherIndoorRequest s e = false := by
        revert hN; cases isNeitherIndoorRequest s e <;> simp
      exact ⟨"Unable to calculate outdoor route between buildings. Please check your internet connection and try again.",
        by simp [findCrossBuildingRoute, hnotsame, hN2, hout, hosrm]⟩

/-- Witness for C2: both providers down, a mixed request (caller-annotated
buildings, so no box detection is involved) fails as a whole. -/
theorem c2_outdoor_fallback_once_and_terminal_failure_witness :
    (getOutdoorRoute
        ⟨fun _ _ => 0, Except.error "down", Except.error "down2", fun _ _ => none⟩).2.count
      OutdoorCall.osrm = 1
    ∧ ∃ msg,
        (findCrossBuildingRoute
          ⟨fun _ _ => 0, Except.error "down", Except.error "down2", fun _ _ => none⟩
          ⟨(0, 0), some "healy", none⟩ ⟨(0, 0), some "darnall", none⟩).1
          = Except.error msg :=
  have h := c2_outdoor_fallback_once_and_terminal_failure
    ⟨fun _ _ => 0, Except.error "down", Except.error "down2", fun _ _ => none⟩
    ⟨(0, 0), some "healy", none⟩ ⟨(0, 0), some "darnall", none⟩ "down" rfl
  ⟨h.1, h.2 "Failed to get OSRM outdoor route: down2" rfl (by decide)⟩

/-! ## Claim C3 -/

/-- C3: every request falls in exactly one of the SAME_BUILDING /
NEITHER_INDOOR / MIXED handlings, and in the SAME_BUILDING case the
orchestrator makes no outdoor-provider call and returns a route whose
`outdoor.distance` is 0. -/
theorem c3_classification_and_same_building (env : NavEnv) (s e : RouteEndpoint) :
    ((isSameBuildingRequest s e = true ∧ isNeitherIndoorRequest s e = false
        ∧ isMixedRequest s e = false)
      ∨ (isSameBuildingRequest s e = false ∧ isNeitherIndoorRequest s e = true
        ∧ isMixedRequest s e = false)
      ∨ (isSameBuildingRequest s e = false ∧ isNeitherIndoorRequest s e = false
        ∧ isMixedRequest s e = true))
    ∧ (isSameBuildingRequest s e = true →
        (findCrossBuildingRoute env s e).2 = []
        ∧ ∃ r, (findCrossBuildingRoute env s e).1 = Except.ok r
            ∧ r.outdoor.distance = 0) := by
  constructor
  · cases hp : truthyStr (detectedBuilding s) <;>
      cases hq : truthyStr (detectedBuilding e) <;>
        by_cases hr : detectedBuilding s = detectedBuilding e <;>
          simp [isSameBuildingRequest, isNeitherIndoorRequest, isMixedRequest, hp, hq, hr]
  · intro hS
    refine ⟨by simp [findCrossBuildingRoute, hS], getIndoorOnlyRoute env s e,
      by simp [findCrossBuildingRoute, hS], rfl⟩

/-- Witness for C3: both endpoints annotated with building "healy"; no
outdoor call is recorded and the returned outdoor distance is 0. -/
theorem c3_classification_and_same_building_witness :
    (findCrossBuildingRoute
        ⟨fun _ _ => 0, Except.error "x", Except.error "y", fun a b => some [a, b]⟩
        ⟨(0, 0), some "healy", none⟩ ⟨(1, 1), some "healy", none⟩).2 = []
    ∧ ∃ r, (findCrossBuildingRoute
        ⟨fun _ _ => 0, Except.error "x", Except.error "y", fun a b => some [a, b]⟩
        ⟨(0, 0), some "healy", none⟩ ⟨(1, 1), some "healy", none⟩).1 = Except.ok r
        ∧ r.outdoor.distance = 0 :=
  (c3_classification_and_same_building
    ⟨fun _ _ => 0, Except.error "x", Except.error "y", fun a b => some [a, b]⟩
    ⟨(0, 0), some "healy", none⟩ ⟨(1, 1), some "healy", none⟩).2 (by decide)

/-! ## Claim C9 -/

/-- C9: the orchestrator returns the primary provider's route with the fixed
realism adjustment applied — duration = provider duration × 1.4 + 300 s,
each leg's and step's duration scaled by the proportional multiplier
`adjustedDuration / duration` — and indoor segment duration is estimated
from the geometry alone as length / 1.0 m/s + 60 s, never requested from a
provider. -/
theorem c9_duration_adjustment (env : NavEnv) (route : OSMRoute)
    (c3r : Concept3DRoute) (θ : Coord → Coord → ℚ) (coords : List Coord)
    (_hdur : route.duration ≠ 0)
    (hprim : env.concept3dResult = Except.ok c3r) :
    (adjustRouteTimingForRealism route).duration = route.duration * (14/10) + 300
    ∧ (adjustRouteTimingForRealism route).legs = route.legs.map (fun leg =>
        { leg with
          duration := leg.duration * ((route.duration * (14/10) + 300) / route.duration)
          steps := leg.steps.map (fun step =>
            { step with
              duration := step.duration
                * ((route.duration * (14/10) + 300) / route.duration) }) })
    ∧ (getOutdoorRoute env).1
        = Except.ok (adjustRouteTimingForRealism (routeToOSMFormat c3r))
    ∧ estimateIndoorDuration θ coords = calculateDistance θ coords / 1 + 60 :=
  ⟨rfl, rfl, by simp [getOutdoorRoute, hprim], rfl⟩

/-- Witness for C9 at a concrete one-leg route of duration 100 s. -/
theorem c9_duration_adjustment_witness :
    (adjustRouteTimingForRealism
        ⟨100, 100, [(0, 0), (1, 1)], [⟨100, 100, [], "s", 100⟩], 100, "duration"⟩).duration
      = (100 : ℚ) * (14/10) + 300
    ∧ (getOutdoorRoute ⟨fun _ _ => 0, Except.ok ⟨5, 7, [], [(0, 0), (1, 1)]⟩,
          Except.error "y", fun _ _ => none⟩).1
        = Except.ok (adjustRouteTimingForRealism (routeToOSMFormat ⟨5, 7, [], [(0, 0), (1, 1)]⟩)) :=
  have h := c9_duration_adjustment
    ⟨fun _ _ => 0, Except.ok ⟨5, 7, [], [(0, 0), (1, 1)]⟩, Except.error "y", fun _ _ => none⟩
    ⟨100, 100, [(0, 0), (1, 1)], [⟨100, 100, [], "s", 100⟩], 100, "duration"⟩
    ⟨5, 7, [], [(0, 0), (1, 1)]⟩ (fun _ _ => 0) [] (by decide) rfl
  ⟨h.1, h.2.2.1⟩

/-! ## Claim C10: IEEE-754 special values for the zero-duration case -/

/-- A JavaScript IEEE-754 double restricted to the values arising in the
timing adjustment: finite numbers (idealized as exact rationals — rounding
is irrelevant to the zero-duration behaviour), the two infinities, and NaN.
Zeros are unsigned: only the positive zero occurs here. -/
inductive JSNum
  | fin : ℚ → JSNum
  | posInf : JSNum
  | negInf : JSNum
  | nan : JSNum
deriving DecidableEq

def JSNum.isFinite : JSNum → Bool
  | .fin _ => true
  | _ => false

def JSNum.add : JSNum → JSNum → JSNum
  | .nan, _ => .nan
  | _, .nan => .nan
  | .fin a, .fin b => .fin (a + b)
  | .fin _, .posInf => .posInf
  | .fin _, .negInf => .negInf
  | .posInf, .fin _ => .posInf
  | .negInf, .fin _ => .negInf
  | .posInf, .posInf => .posInf
  | .negInf, .negInf => .negInf
  | .posInf, .negInf => .nan
  | .negInf, .posInf => .nan

def JSNum.mul : JSNum → JSNum → JSNum
  | .nan, _ => .nan
  | _, .nan => .nan
  | .fin a, .fin b => .fin (a * b)
  | .fin a, .posInf => if 0 < a then .posInf else if a < 0 then .negInf else .nan
  | .fin a, .negInf => if 0 < a then .negInf else if a < 0 then .posInf else .nan
  | .posInf, .fin b => if 0 < b then .posInf else if b < 0 then .negInf else .nan
  | .negInf, .fin b => if 0 < b then .negInf else if b < 0 then .posInf else .nan
  | .posInf, .posInf => .posInf
  | .posInf, .negInf => .negInf
  | .negInf, .posInf => .negInf
  | .negInf, .negInf => .posInf

def JSNum.div : JSNum → JSNum → JSNum
  | .nan, _ => .nan
  | _, .nan => .nan
  | .fin a, .fin b =>
      if b = 0 then (if 0 < a then .posInf else if a < 0 then .negInf else .nan)
      else .fin (a / b)
  | .fin _, .posInf => .fin 0
  | .fin _, .negInf => .fin 0
  | .posInf, .fin b => if 0 ≤ b then .posInf else .negInf
  | .negInf, .fin b => if 0 ≤ b then .negInf else .posInf
  | .posInf, .posInf => .nan
  | .posInf, .negInf => .nan
  | .negInf, .posInf => .nan
  | .negInf, .negInf => .nan

/-- An outdoor route restricted to its duration fields over IEEE-flavoured
numbers; the distance, geometry and text fields are carried through
`adjustRouteTimingForRealism` unchanged and are omitted. -/
structure JSRouteStep where
  duration : JSNum
deriving DecidableEq

structure JSRouteLeg where
  duration : JSNum
  steps : List JSRouteStep
deriving DecidableEq

structure JSRoute where
  duration : JSNum
  legs : List JSRouteLeg
deriving DecidableEq

/-- `adjustRouteTimingForRealism` (source lines 1639-1665) over
IEEE-flavoured numbers: the leg multiplier `adjustedDuration /
route.duration` is computed by an unguarded division for every input. -/
def jsAdjustRouteTimingForRealism (route : JSRoute) : JSRoute :=
  let baseSpeedAdjustment : JSNum := JSNum.fin (14/10)
  let bufferTime : JSNum := JSNum.fin 300
  let adjustedDuration := (route.duration.mul baseSpeedAdjustment).add bufferTime
  let durationMultiplier := adjustedDuration.div route.duration
  { duration := adjustedDuration
    legs := route.legs.map (fun leg =>
      { duration := leg.duration.mul durationMultiplier
        steps := leg.steps.map (fun step =>
          { duration := step.duration.mul durationMultiplier }) }) }

theorem mul_posInf_not_finite (x : JSNum) : (x.mul JSNum.posInf).isFinite = false := by
  cases x with
  | fin a =>
      simp only [JSNum.mul]
      split_ifs <;> rfl
  | posInf => rfl
  | negInf => rfl
  | nan => rfl

/-- C10: for an outdoor provider route whose reported duration is 0, the
realism adjustment's proportional leg multiplier `adjustedDuration /
route.duration` divides by zero (producing +∞: `(0·1.4 + 300)/0`), so every
returned leg's and step's duration is a non-finite number; the division is
unguarded for every input with duration 0. -/
theorem c10_zero_duration_division (route : JSRoute)
    (h0 : route.duration = JSNum.fin 0) :
    ∀ leg ∈ (jsAdjustRouteTimingForRealism route).legs,
      leg.duration.isFinite = false
      ∧ ∀ step ∈ leg.steps, step.duration.isFinite = false := by
  have hmul : ((route.duration.mul (JSNum.fin (14/10))).add (JSNum.fin 300)).div route.duration
      = JSNum.posInf := by
    rw [h0]
    simp only [JSNum.mul, JSNum.add, JSNum.div]
    norm_num
  intro leg hleg
  simp only [jsAdjustRouteTimingForRealism, List.mem_map] at hleg
  obtain ⟨leg0, _, rfl⟩ := hleg
  constructor
  · simp only [hmul, mul_posInf_not_finite]
  · intro step hstep
    simp only [List.mem_map] at hstep
    obtain ⟨step0, _, rfl⟩ := hstep
    simp only [hmul, mul_posInf_not_finite]

/-- Witness for C10: a zero-duration route with one finite-duration leg
comes back with a non-finite leg duration. -/
theorem c10_zero_duration_division_witness :
    ((jsAdjustRouteTimingForRealism
        ⟨JSNum.fin 0, [⟨JSNum.fin 5, [⟨JSNum.fin 5⟩]⟩]⟩).legs.headD
      ⟨JSNum.nan, []⟩).duration.isFinite = false :=
  (c10_zero_duration_division ⟨JSNum.fin 0, [⟨JSNum.fin 5, [⟨JSNum.fin 5⟩]⟩]⟩ rfl
    ((jsAdjustRouteTimingForRealism
        ⟨JSNum.fin 0, [⟨JSNum.fin 5, [⟨JSNum.fin 5⟩]⟩]⟩).legs.headD ⟨JSNum.nan, []⟩)
    (by simp [jsAdjustRouteTimingForRealism])).1

/-! ## The MIXED dual-indoor evaluation (shared by C7 and C8) -/

/-- Full evaluation of `findCrossBuildingRoute` in the MIXED case with both
sides indoor in different buildings and a successful outdoor route and
destination-side indoor leg: the destination-side geometry is kept, the
origin side contributes only an instruction without geometry (its indoor
segment is never computed), the exit-building instruction is never inserted
(`transitionIndex` is `-1` because outdoor instructions are appended only
afterwards), and the outdoor instructions land at the very end. -/
theorem mixed_dual_indoor_eval (env : NavEnv) (s e : RouteEndpoint)
    (bs be : String) (o : OSMRoute) (calls : List OutdoorCall) (gEnd : List Coord)
    (hsb : detectedBuilding s = some bs) (heb : detectedBuilding e = some be)
    (hbs : ¬ bs = "") (hbe : ¬ be = "") (hne : ¬ bs = be)
    (hout : getOutdoorRoute env = (Except.ok o, calls))
    (hend : getIndoorRoute env (findNearestEntrance e.coordinates (some be)).coordinates
        e.coordinates = some gEnd) :
    findCrossBuildingRoute env s e =
      (Except.ok
        { indoorStart := none
          indoorEnd := some gEnd
          outdoor := o
          transitionToOutdoor := some (createTransitionLine
            (findNearestEntrance s.coordinates (some bs)).coordinates
            (o.geometry.headD (0, 0)))
          transitionToIndoor := some (createTransitionLine (o.geometry.getLastD (0, 0))
            (findNearestEntrance e.coordinates (some be)).coordinates)
          totalDistance := o.distance + calculateDistance env.centralAngle gEnd
            + (calculateDistance env.centralAngle (createTransitionLine
                (findNearestEntrance s.coordinates (some bs)).coordinates
                (o.geometry.headD (0, 0)))
              + calculateDistance env.centralAngle (createTransitionLine
                (o.geometry.getLastD (0, 0))
                (findNearestEntrance e.coordinates (some be)).coordinates))
          totalDuration := o.duration + estimateIndoorDuration env.centralAngle gEnd
            + (30 + 30)
          instructions :=
            { kind := InstrKind.indoor
              text := "Navigate inside " ++ bs ++ " to building exit"
              building := some bs, floor := s.floor, geometry := none }
            :: { kind := InstrKind.transition, text := "Enter " ++ be }
            :: { kind := InstrKind.indoor
                 text := "Navigate inside " ++ be ++ " to your destination"
                 building := some be, floor := e.floor, geometry := some gEnd }
            :: createOutdoorInstructions o }, calls) := by
  have hts : truthyStr (some bs) = true := by simp [truthyStr, hbs]
  have hte : truthyStr (some be) = true := by simp [truthyStr, hbe]
  have hS : isSameBuildingRequest s e = false := by
    simp [isSameBuildingRequest, hsb, heb, hne]
  have hN : isNeitherIndoorRequest s e = false := by
    simp [isNeitherIndoorRequest, hsb, hts]
  simp only [findCrossBuildingRoute, hS, hN, hsb, heb, hts, hte, hout, hend, strOf,
    Option.getD_some, Option.isSome_some, Bool.and_true, Bool.and_false, Bool.true_and,
    Bool.false_and, Bool.not_true, Bool.not_false, if_true, if_false, ite_self,
    Bool.false_eq_true, List.findIdx?, List.any_cons, List.any_nil,
    List.cons_append, List.nil_append, Option.isSome_none, add_zero, zero_add,
    decide_eq_true_eq, decide_True, decide_False, reduceCtorEq, reduceIte]

/-! ## Claim C7 -/

/-- C7 counterexample: in a dual-indoor request the origin-side indoor
segment's distance is neither computed nor added into the totals.  With the
constant central angle 1 every 2-point line is 6 371 000 m long, so the
origin-side leg the claim says is included measures 6 371 000 m, yet the
returned total distance is exactly outdoor (100) + destination leg +
two transitions = 19 113 100, and `indoor.start` is absent. -/
theorem c7_dual_indoor_totals_counterexample :
    ((findCrossBuildingRoute
        ⟨fun _ _ => 1,
         Except.ok ⟨100, 100, [⟨10, 10, "straight", "turn", "Head north", [(1, 1), (2, 2)]⟩],
           [(1, 1), (2, 2)]⟩,
         Except.error "y", fun a b => some [a, b]⟩
        ⟨(9, 1), some "reiss", none⟩ ⟨(9, 2), some "darnall", none⟩).1.toOption.map
      (fun r => r.totalDistance)) = some 19113100
    ∧ ((findCrossBuildingRoute
        ⟨fun _ _ => 1,
         Except.ok ⟨100, 100, [⟨10, 10, "straight", "turn", "Head north", [(1, 1), (2, 2)]⟩],
           [(1, 1), (2, 2)]⟩,
         Except.error "y", fun a b => some [a, b]⟩
        ⟨(9, 1), some "reiss", none⟩ ⟨(9, 2), some "darnall", none⟩).1.toOption.map
      (fun r => r.indoorStart)) = some none
    ∧ calculateDistance (fun _ _ => 1)
        [((9 : ℚ), (1 : ℚ)), (findNearestEntrance ((9 : ℚ), (1 : ℚ)) (some "reiss")).coordinates]
      = 6371000
    ∧ (19113100 : ℚ) + 6371000 ≠ 19113100 := by
  rw [show findCrossBuildingRoute
      ⟨fun _ _ => 1,
       Except.ok ⟨100, 100, [⟨10, 10, "straight", "turn", "Head north", [(1, 1), (2, 2)]⟩],
         [(1, 1), (2, 2)]⟩,
       Except.error "y", fun a b => some [a, b]⟩
      ⟨(9, 1), some "reiss", none⟩ ⟨(9, 2), some "darnall", none⟩ = _ from
    mixed_dual_indoor_eval _ _ _ "reiss" "darnall"
      (adjustRouteTimingForRealism (routeToOSMFormat
        ⟨100, 100, [⟨10, 10, "straight", "turn", "Head north", [(1, 1), (2, 2)]⟩],
          [(1, 1), (2, 2)]⟩))
      [OutdoorCall.concept3d]
      [(findNearestEntrance ((9 : ℚ), (2 : ℚ)) (some "darnall")).coordinates, (9, 2)]
      rfl rfl (by decide) (by decide) (by decide) rfl rfl]
  refine ⟨?_, rfl, ?_, by norm_num⟩
  · norm_num [adjustRouteTimingForRealism, routeToOSMFormat, calculateDistance,
      calculateHaversineDistance, createTransitionLine, Except.toOption]
  · norm_num [calculateDistance, calculateHaversineDistance]

/-- C7 (amended): when both sides are indoor in different buildings and the
destination-side indoor leg is found, only the destination-side indoor
geometry is retained (`indoor.start` is absent); the origin-side *instruction
text* is still included, first in the list and without geometry; but the
origin-side indoor segment is never computed, so neither its distance nor
its duration enters the totals — the totals are outdoor + destination leg +
the two transition segments (plus the fixed 30 s per transition for the
duration). -/
theorem c7_display_priority_amended (env : NavEnv) (s e : RouteEndpoint)
    (bs be : String) (o : OSMRoute) (calls : List OutdoorCall) (gEnd : List Coord)
    (hsb : detectedBuilding s = some bs) (heb : detectedBuilding e = some be)
    (hbs : ¬ bs = "") (hbe : ¬ be = "") (hne : ¬ bs = be)
    (hout : getOutdoorRoute env = (Except.ok o, calls))
    (hend : getIndoorRoute env (findNearestEntrance e.coordinates (some be)).coordinates
        e.coordinates = some gEnd) :
    ∃ r, (findCrossBuildingRoute env s e).1 = Except.ok r
      ∧ r.indoorStart = none
      ∧ r.indoorEnd = some gEnd
      ∧ r.instructions.headD { kind := InstrKind.indoor, text := "" }
          = { kind := InstrKind.indoor
              text := "Navigate inside " ++ bs ++ " to building exit"
              building := some bs, floor := s.floor, geometry := none }
      ∧ r.totalDistance = o.distance + calculateDistance env.centralAngle gEnd
          + (calculateDistance env.centralAngle (createTransitionLine
              (findNearestEntrance s.coordinates (some bs)).coordinates
              (o.geometry.headD (0, 0)))
            + calculateDistance env.centralAngle (createTransitionLine
              (o.geometry.getLastD (0, 0))
              (findNearestEntrance e.coordinates (some be)).coordinates))
      ∧ r.totalDuration = o.duration + estimateIndoorDuration env.centralAngle gEnd
          + (30 + 30) := by
  rw [show findCrossBuildingRoute env s e = _ from
    mixed_dual_indoor_eval env s e bs be o calls gEnd hsb heb hbs hbe hne hout hend]
  exact ⟨_, rfl, rfl, rfl, rfl, rfl, rfl⟩

/-- Witness for C7 (amended) at a concrete dual-indoor request. -/
theorem c7_display_priority_amended_witness :
    ∃ r, (findCrossBuildingRoute
        ⟨fun _ _ => 1,
         Except.ok ⟨100, 100, [⟨10, 10, "straight", "turn", "Head north", [(1, 1), (2, 2)]⟩],
           [(1, 1), (2, 2)]⟩,
         Except.error "y", fun a b => some [a, b]⟩
        ⟨(9, 1), some "reiss", none⟩ ⟨(9, 2), some "darnall", none⟩).1 = Except.ok r
      ∧ r.indoorStart = none
      ∧ r.indoorEnd = some [(findNearestEntrance ((9 : ℚ), (2 : ℚ)) (some "darnall")).coordinates, (9, 2)]
      ∧ r.instructions.headD { kind := InstrKind.indoor, text := "" }
          = { kind := InstrKind.indoor
              text := "Navigate inside " ++ "reiss" ++ " to building exit"
              building := some "reiss", floor := none, geometry := none }
      ∧ r.totalDistance = (adjustRouteTimingForRealism (routeToOSMFormat
            ⟨100, 100, [⟨10, 10, "straight", "turn", "Head north", [(1, 1), (2, 2)]⟩],
              [(1, 1), (2, 2)]⟩)).distance
          + calculateDistance (fun _ _ => 1)
              [(findNearestEntrance ((9 : ℚ), (2 : ℚ)) (some "darnall")).coordinates, (9, 2)]
          + (calculateDistance (fun _ _ => 1) (createTransitionLine
              (findNearestEntrance ((9 : ℚ), (1 : ℚ)) (some "reiss")).coordinates
              ((adjustRouteTimingForRealism (routeToOSMFormat
                ⟨100, 100, [⟨10, 10, "straight", "turn", "Head north", [(1, 1), (2, 2)]⟩],
                  [(1, 1), (2, 2)]⟩)).geometry.headD (0, 0)))
            + calculateDistance (fun _ _ => 1) (createTransitionLine
              ((adjustRouteTimingForRealism (routeToOSMFormat
                ⟨100, 100, [⟨10, 10, "straight", "turn", "Head north", [(1, 1), (2, 2)]⟩],
                  [(1, 1), (2, 2)]⟩)).geometry.getLastD (0, 0))
              (findNearestEntrance ((9 : ℚ), (2 : ℚ)) (some "darnall")).coordinates))
      ∧ r.totalDuration = (adjustRouteTimingForRealism (routeToOSMFormat
            ⟨100, 100, [⟨10, 10, "straight", "turn", "Head north", [(1, 1), (2, 2)]⟩],
              [(1, 1), (2, 2)]⟩)).duration
          + estimateIndoorDuration (fun _ _ => 1)
              [(findNearestEntrance ((9 : ℚ), (2 : ℚ)) (some "darnall")).coordinates, (9, 2)]
          + (30 + 30) :=
  c7_display_priority_amended
    ⟨fun _ _ => 1,
     Except.ok ⟨100, 100, [⟨10, 10, "straight", "turn", "Head north", [(1, 1), (2, 2)]⟩],
       [(1, 1), (2, 2)]⟩,
     Except.error "y", fun a b => some [a, b]⟩
    ⟨(9, 1), some "reiss", none⟩ ⟨(9, 2), some "darnall", none⟩
    "reiss" "darnall"
    (adjustRouteTimingForRealism (routeToOSMFormat
      ⟨100, 100, [⟨10, 10, "straight", "turn", "Head north", [(1, 1), (2, 2)]⟩],
        [(1, 1), (2, 2)]⟩))
    [OutdoorCall.concept3d]
    [(findNearestEntrance ((9 : ℚ), (2 : ℚ)) (some "darnall")).coordinates, (9, 2)]
    rfl rfl (by decide) (by decide) (by decide) rfl rfl

/-! ## Claim C8 -/

/-- C8 evaluation at the failing inputs: (a) with an indoor origin and an
outdoor destination the instruction list is `[indoor, outdoor]` — the
"exit building" transition instruction is never emitted, because it is
spliced in before the first `outdoor` instruction but the outdoor
instructions are appended only afterwards (`findIndex` returns `-1`);
(b) with both sides indoor the list is
`[indoor, transition(enter), indoor, outdoor]` — the outdoor instructions
come after the enter-building and destination-side indoor instructions,
not before them, and again no exit instruction exists.  The claimed
traversal order (origin indoor → exit → outdoor → enter → destination
indoor) is therefore not what the code produces. -/
theorem c8_instruction_order_eval :
    ((findCrossBuildingRoute
        ⟨fun _ _ => 1,
         Except.ok ⟨100, 100, [⟨10, 10, "straight", "turn", "Head north", [(1, 1), (2, 2)]⟩],
           [(1, 1), (2, 2)]⟩,
         Except.error "y", fun a b => some [a, b]⟩
        ⟨(9, 1), some "reiss", none⟩ ⟨(9, 2), none, none⟩).1.toOption.map
      (fun r => r.instructions.map (fun i => i.kind)))
      = some [InstrKind.indoor, InstrKind.outdoor]
    ∧ ((findCrossBuildingRoute
        ⟨fun _ _ => 1,
         Except.ok ⟨100, 100, [⟨10, 10, "straight", "turn", "Head north", [(1, 1), (2, 2)]⟩],
           [(1, 1), (2, 2)]⟩,
         Except.error "y", fun a b => some [a, b]⟩
        ⟨(9, 1), some "reiss", none⟩ ⟨(9, 2), some "darnall", none⟩).1.toOption.map
      (fun r => r.instructions.map (fun i => i.kind)))
      = some [InstrKind.indoor, InstrKind.transition, InstrKind.indoor, InstrKind.outdoor] := by
  constructor
  · have hDet : detectBuildingFromCoordinate ((9 : ℚ), (2 : ℚ)) = none := by
      norm_num [detectBuildingFromCoordinate]
    have hS : isSameBuildingRequest ⟨(9, 1), some "reiss", none⟩ ⟨(9, 2), none, none⟩ = false := by
      simp [isSameBuildingRequest, detectedBuilding, truthyStr, hDet]
    have hN : isNeitherIndoorRequest ⟨(9, 1), some "reiss", none⟩ ⟨(9, 2), none, none⟩ = false := by
      simp [isNeitherIndoorRequest, detectedBuilding, truthyStr]
    simp only [findCrossBuildingRoute, hS, hN, hDet, detectedBuilding, truthyStr, strOf,
      getIndoorRoute, getOutdoorRoute, findNearestEntrance, loadBuildingEntrances,
      List.length_cons, List.length_nil, Nat.le_refl,
      getDistanceToEntranceSq, lt_self_iff_false,
      Option.getD_some, Option.isSome_some, Bool.and_true, Bool.and_false, Bool.true_and,
      Bool.false_and, Bool.not_true, Bool.not_false, if_true, if_false, ite_self,
      Bool.false_eq_true, List.findIdx?, List.any_cons, List.any_nil,
      List.cons_append, List.nil_append, Option.isSome_none, add_zero, zero_add,
      decide_eq_true_eq, decide_True, decide_False, reduceCtorEq, reduceIte,
      List.filter, List.foldl, List.length, Except.toOption, Option.map,
      createOutdoorInstructions, routeToOSMFormat, adjustRouteTimingForRealism,
      List.flatMap, List.map]
  · rw [show findCrossBuildingRoute
        ⟨fun _ _ => 1,
         Except.ok ⟨100, 100, [⟨10, 10, "straight", "turn", "Head north", [(1, 1), (2, 2)]⟩],
           [(1, 1), (2, 2)]⟩,
         Except.error "y", fun a b => some [a, b]⟩
        ⟨(9, 1), some "reiss", none⟩ ⟨(9, 2), some "darnall", none⟩ = _ from
      mixed_dual_indoor_eval _ _ _ "reiss" "darnall"
        (adjustRouteTimingForRealism (routeToOSMFormat
          ⟨100, 100, [⟨10, 10, "straight", "turn", "Head north", [(1, 1), (2, 2)]⟩],
            [(1, 1), (2, 2)]⟩))
        [OutdoorCall.concept3d]
        [(findNearestEntrance ((9 : ℚ), (2 : ℚ)) (some "darnall")).coordinates, (9, 2)]
        rfl rfl (by decide) (by decide) (by decide) rfl rfl]
    simp [createOutdoorInstructions, routeToOSMFormat, adjustRouteTimingForRealism,
      Except.toOption]

end Wayfinding

end FloorMap
